import Mathlib

/-!
# Verification of the crypto_monitor lifecycle coordinator

Shallow embedding of `src/crypto_monitor/main.py` (class `CryptoMonitorApp`).
The class wires models, views and controllers together, installs shutdown
triggers (signal handlers, an atexit hook, and the `finally` block of
`start`), and performs teardown in `cleanup`.

Modelling choices:
* Every observable action of the code (a call into a collaborator, a console
  report, a plain `print` in an `except` block, entering the keep-alive loop,
  `sys.exit`) is an `Event`; each constructor corresponds to one call site of
  `main.py`, noted by line number.
* A method run is a pair `(trace, err)`: the list of events that happened, and
  `some e` when a Python exception `e` escapes the method.
* Whether a collaborator call raises, and whether the `running` flag of the
  visualizer is set, are inputs (`Behavior`, `StartBehavior`): the embedding
  is a function of the behavior of the environment, quantified over in the
  theorems.
* `App` carries the configuration extracted in `__init__` plus one presence
  flag per attribute that `cleanup` guards with `hasattr`; an attribute access
  on an absent attribute raises `PyError.attributeError`.  `cleanup` mutates
  no attribute of `self` (it sets no done-flag), so a run of `cleanup` returns
  only its trace and exception, and repeated invocations see the same state.
-/

/-- A Python exception escaping one of the modelled methods. -/
inductive PyError where
  | attributeError
  | startListenerError
  | connectError
  | vizStartError
  | loopError
  deriving DecidableEq

/-- One observable action; each constructor is one call site of `main.py`
(line numbers in comments). -/
inductive Event where
  | infoStartingApp      -- line 86: print_info "Starting Cryptocurrency Market Monitor..."
  | infoTrackingSymbols  -- line 87: print_info "Tracking symbols: ..."
  | cmdStartListener     -- line 90: cmd_controller.start_listener()
  | wsConnect            -- line 93: ws_controller.connect()
  | infoStartingViz      -- line 97: print_info "Starting 3D visualization..."
  | vizStart             -- line 98: visualizer.start()
  | successVizStarted    -- line 100: print_success "Visualization started..."
  | errorVizFailed       -- line 102: print_error "Failed to start visualization..."
  | infoTypeHelp         -- line 106: print_info "Type help ..." (persistent)
  | loopEntered          -- line 110: the keep-alive `while True` loop is entered
  | infoShuttingDown     -- line 113: print_info "Shutting down..."
  | rawInterrupt         -- line 77: print "\nReceived interrupt signal..."
  | sysExit              -- line 79: sys.exit(0)
  | infoCleaningUp       -- line 119: print_info "Cleaning up application resources..."
  | cmdStop              -- line 124: cmd_controller.stop()
  | rawErrCmdStop        -- line 126: print "Error stopping command controller: ..."
  | wsClose              -- line 131: ws_controller.close()
  | rawErrWsClose        -- line 133: print "Error closing WebSocket: ..."
  | vizStop              -- line 138: visualizer.stop()
  | rawErrVizStop        -- line 140: print "Error stopping visualization: ..."
  | infoFlushing         -- line 145: print_info "Flushing remaining database records..."
  | dbFlush              -- line 146: db_manager.flush()
  | dbClose              -- line 147: db_manager.close()
  | successDbClosed      -- line 148: print_success "Database closed successfully."
  | rawErrDb             -- line 150: print "Error closing database: ..."
  | infoShutdownComplete -- line 152: print_info "Application shutdown complete."
  deriving DecidableEq

/-- The command-line arguments consumed by `__init__` (lines 30-33). -/
structure Args where
  db_name : String
  symbols : List String
  viz : Bool
  batch_size : Nat

/-- The Python method `str.upper()` as used on ticker symbols (line 31). -/
def pyUpper (s : String) : String := s.map Char.toUpper

/-- The state of a `CryptoMonitorApp` instance: the configuration extracted in
`__init__`, the symbol lists handed to the models and the visualization view
at construction (lines 36-46), and one presence flag per attribute that
`cleanup` inspects — `false` models an instance on which construction failed
before that attribute was assigned, so that an access raises
`AttributeError`.  No method of the class ever rebinds these attributes after
`__init__`, so the modelled methods return traces, not a new `App`. -/
structure App where
  db_name : String
  symbols : List String
  enable_viz : Bool
  batch_size : Nat
  trade_model_symbols : List String
  order_book_model_symbols : List String
  visualizer_symbols : List String
  hasConsoleView : Bool
  hasCmdController : Bool
  hasWsController : Bool
  hasVisualizer : Bool
  hasDbManager : Bool

/-- `CryptoMonitorApp.__init__` (lines 19-72): uppercases the configured
symbols once and passes the same list to `TradeModel`, `OrderBookModel` and
`VisualizationView`; a completed construction has every attribute assigned. -/
def init (args : Args) : App :=
  let syms := args.symbols.map pyUpper
  { db_name := args.db_name
    symbols := syms
    enable_viz := args.viz
    batch_size := args.batch_size
    trade_model_symbols := syms
    order_book_model_symbols := syms
    visualizer_symbols := syms
    hasConsoleView := true
    hasCmdController := true
    hasWsController := true
    hasVisualizer := true
    hasDbManager := true }

/-- Environment behavior during one `cleanup` run: which collaborator calls
raise, and the `running` flag of the visualizer (read at line 136). -/
structure Behavior where
  cmdStopRaises : Bool
  wsCloseRaises : Bool
  vizRunning : Bool
  vizStopRaises : Bool
  dbFlushRaises : Bool
  dbCloseRaises : Bool

/-- `CryptoMonitorApp.cleanup` (lines 117-152).  The opening
`self.console_view.print_info` (line 119) is not guarded by `hasattr`, so it
raises `AttributeError` when `console_view` was never assigned.  Each of the
four teardown steps is guarded by `hasattr` and wrapped in
`try/except Exception`, which prints the error and falls through to the next
step.  Inside the database step, `flush()` and `close()` share one `try`
block: a raise from `flush` skips `close` and the success report.  No
done-flag is set anywhere: the effect of the method on `self` is nil. -/
def cleanup (app : App) (b : Behavior) : List Event × Option PyError :=
  if app.hasConsoleView = false then
    ([], some PyError.attributeError)
  else
    let t0 : List Event := [Event.infoCleaningUp]
    let t1 := t0 ++
      (if app.hasCmdController then
        Event.cmdStop :: (if b.cmdStopRaises then [Event.rawErrCmdStop] else [])
      else [])
    let t2 := t1 ++
      (if app.hasWsController then
        Event.wsClose :: (if b.wsCloseRaises then [Event.rawErrWsClose] else [])
      else [])
    let t3 := t2 ++
      (if app.hasVisualizer && b.vizRunning then
        Event.vizStop :: (if b.vizStopRaises then [Event.rawErrVizStop] else [])
      else [])
    let t4 := t3 ++
      (if app.hasDbManager then
        Event.infoFlushing :: Event.dbFlush ::
          (if b.dbFlushRaises then [Event.rawErrDb]
           else Event.dbClose ::
             (if b.dbCloseRaises then [Event.rawErrDb]
              else [Event.successDbClosed]))
      else [])
    (t4 ++ [Event.infoShutdownComplete], none)

/-- The signal handler installed by `_setup_signal_handlers` (lines 76-79):
print, run `cleanup`, then `sys.exit(0)` (reached only if `cleanup` returned
normally). -/
def signal_handler (app : App) (b : Behavior) : List Event × Option PyError :=
  let c := cleanup app b
  match c.2 with
  | some e => (Event.rawInterrupt :: c.1, some e)
  | none => (Event.rawInterrupt :: c.1 ++ [Event.sysExit], none)

/-- The two process signals the constructor installs handlers for. -/
inductive SignalKind where
  | sigint
  | sigterm
  deriving DecidableEq

/-- `_setup_signal_handlers` (lines 81-82): the same closure is registered
for SIGINT and for SIGTERM. -/
def setup_signal_handlers : SignalKind → (App → Behavior → List Event × Option PyError) :=
  fun _ => signal_handler

/-- Environment behavior during one `start` run: which startup collaborator
calls raise, the boolean result of `visualizer.start()` (line 98), and how
the infinite keep-alive loop is eventually exited (`KeyboardInterrupt`, or
any other exception such as the `SystemExit` raised by the signal handler). -/
structure StartBehavior where
  startListenerRaises : Bool
  connectRaises : Bool
  vizStartRaises : Bool
  vizStartResult : Bool
  loopKeyboardInterrupt : Bool

/-- The tail of `start` from line 106 on: the persistent help message, the
keep-alive loop, the `except KeyboardInterrupt` arm, and the `finally` block
that runs `cleanup`.  When the loop exits with an exception other than
`KeyboardInterrupt`, that exception propagates after the `finally` block
(superseded by the exception of `cleanup` itself if `cleanup` raises). -/
def startLoop (app : App) (b : Behavior) (sb : StartBehavior) (t : List Event) :
    List Event × Option PyError :=
  if sb.loopKeyboardInterrupt then
    (t ++ [Event.infoTypeHelp, Event.loopEntered, Event.infoShuttingDown] ++
       (cleanup app b).1,
     (cleanup app b).2)
  else
    (t ++ [Event.infoTypeHelp, Event.loopEntered] ++ (cleanup app b).1,
     some (((cleanup app b).2).getD PyError.loopError))

/-- `CryptoMonitorApp.start` (lines 84-115).  The startup steps (lines
86-106) run outside the `try/finally`: an exception from
`start_listener`, `connect` or `visualizer.start()` propagates out of
`start` without reaching the `finally` block.  Only once the keep-alive loop
section is entered does every exit run `cleanup`. -/
def start (app : App) (b : Behavior) (sb : StartBehavior) :
    List Event × Option PyError :=
  let t0 : List Event := [Event.infoStartingApp, Event.infoTrackingSymbols]
  let t1 := t0 ++ [Event.cmdStartListener]
  if sb.startListenerRaises then (t1, some PyError.startListenerError)
  else
    let t2 := t1 ++ [Event.wsConnect]
    if sb.connectRaises then (t2, some PyError.connectError)
    else if app.enable_viz then
      let t3 := t2 ++ [Event.infoStartingViz, Event.vizStart]
      if sb.vizStartRaises then (t3, some PyError.vizStartError)
      else
        let t4 := if sb.vizStartResult
          then t3 ++ [Event.successVizStarted]
          else t3 ++ [Event.errorVizFailed]
        startLoop app b sb t4
    else
      startLoop app b sb t2

/-- Two consecutive invocations of `cleanup` on the same instance, as happens
when two of the three registered trigger paths fire in sequence (for example
the `finally` block of `start` and then the atexit hook): `cleanup` leaves
the instance unchanged, so the second run sees the same state. -/
def cleanupTwice (app : App) (b : Behavior) : List Event :=
  (cleanup app b).1 ++ (cleanup app b).1

/-- The events that are teardown-step collaborator calls of `cleanup`. -/
def isStepEvent : Event → Bool
  | Event.cmdStop => true
  | Event.wsClose => true
  | Event.vizStop => true
  | Event.dbFlush => true
  | Event.dbClose => true
  | _ => false

/-- Restriction of a trace to the teardown-step collaborator calls. -/
def stepTrace (t : List Event) : List Event := t.filter isStepEvent

/-- Sample arguments, and the application built from them. -/
def sampleArgs : Args :=
  { db_name := "crypto_monitor.db"
    symbols := ["btcusdt", "ethusdt"]
    viz := false
    batch_size := 100 }

def sampleApp : App := init sampleArgs

/-- A run in which no collaborator call raises and the visualizer is not
running. -/
def benign : Behavior :=
  { cmdStopRaises := false
    wsCloseRaises := false
    vizRunning := false
    vizStopRaises := false
    dbFlushRaises := false
    dbCloseRaises := false }

/-- An instance on which construction failed before line 44: `console_view`
(and everything after it) was never assigned, while the models built on lines
36-41 were. -/
def noConsoleApp : App :=
  { db_name := "crypto_monitor.db"
    symbols := ["BTCUSDT"]
    enable_viz := false
    batch_size := 100
    trade_model_symbols := ["BTCUSDT"]
    order_book_model_symbols := ["BTCUSDT"]
    visualizer_symbols := ["BTCUSDT"]
    hasConsoleView := false
    hasCmdController := false
    hasWsController := false
    hasVisualizer := false
    hasDbManager := true }

/-- An instance on which construction failed after `console_view` was
assigned (line 44) but before the controllers were (lines 49-63). -/
def someMissingApp : App :=
  { noConsoleApp with hasConsoleView := true }

/-- A run in which every collaborator call of `cleanup` raises and the
visualizer is running. -/
def allRaise : Behavior :=
  { cmdStopRaises := true
    wsCloseRaises := true
    vizRunning := true
    vizStopRaises := true
    dbFlushRaises := true
    dbCloseRaises := true }

/-- A run with the visualizer running and no collaborator call raising. -/
def vizBehavior : Behavior :=
  { benign with vizRunning := true }

/-- A run in which only the final database flush raises. -/
def flushFails : Behavior :=
  { benign with dbFlushRaises := true }

/-- A `start` run in which `ws_controller.connect()` (line 93) raises. -/
def sbConnectFails : StartBehavior :=
  { startListenerRaises := false
    connectRaises := true
    vizStartRaises := false
    vizStartResult := true
    loopKeyboardInterrupt := true }

/-- A `start` run in which startup succeeds and the keep-alive loop is ended
by `KeyboardInterrupt`. -/
def sbKeyboard : StartBehavior :=
  { startListenerRaises := false
    connectRaises := false
    vizStartRaises := false
    vizStartResult := true
    loopKeyboardInterrupt := true }

/-- A `start` run in which `visualizer.start()` returns `False`. -/
def sbVizFails : StartBehavior :=
  { sbKeyboard with vizStartResult := false }

/-- Sample arguments with the visualization flag enabled. -/
def vizArgs : Args :=
  { db_name := "crypto_monitor.db"
    symbols := ["btcusdt"]
    viz := true
    batch_size := 50 }

def vizApp : App := init vizArgs

/-- An application value carrying only attribute-presence flags; `cleanup`
reads nothing else of the instance, which `cleanup_flags` below records. -/
def flagApp (c1 c2 c3 c4 c5 : Bool) : App :=
  { db_name := ""
    symbols := []
    enable_viz := false
    batch_size := 0
    trade_model_symbols := []
    order_book_model_symbols := []
    visualizer_symbols := []
    hasConsoleView := c1
    hasCmdController := c2
    hasWsController := c3
    hasVisualizer := c4
    hasDbManager := c5 }

/-- `cleanup` depends on the instance only through the five presence flags. -/
theorem cleanup_flags (d : String) (s : List String) (e : Bool) (n : Nat)
    (x y z : List String) (c1 c2 c3 c4 c5 : Bool) (b : Behavior) :
    cleanup ⟨d, s, e, n, x, y, z, c1, c2, c3, c4, c5⟩ b =
      cleanup (flagApp c1 c2 c3 c4 c5) b := rfl

/-- When `console_view` is present, no exception escapes `cleanup`: every
teardown step sits in its own `try/except Exception` block. -/
theorem cleanup_err_none (app : App) (b : Behavior)
    (hc : app.hasConsoleView = true) : (cleanup app b).2 = none := by
  obtain ⟨d, s, e, n, x, y, z, c1, c2, c3, c4, c5⟩ := app
  dsimp only at hc
  subst hc
  rw [cleanup_flags]
  revert c2 c3 c4 c5
  obtain ⟨b1, b2, b3, b4, b5, b6⟩ := b
  revert b1 b2 b3 b4 b5 b6
  decide

/-- `cleanup` never calls `visualizer.start()`: the event can only come from
the startup path. -/
theorem vizStart_not_mem_cleanup (app : App) (b : Behavior) :
    Event.vizStart ∉ (cleanup app b).1 := by
  obtain ⟨d, s, e, n, x, y, z, c1, c2, c3, c4, c5⟩ := app
  rw [cleanup_flags]
  revert c1 c2 c3 c4 c5
  obtain ⟨b1, b2, b3, b4, b5, b6⟩ := b
  revert b1 b2 b3 b4 b5 b6
  decide

/-- Claim C1, counterexample: `cleanup` keeps no executed-once flag, so when a
second trigger path invokes it on the same (unchanged) instance, the whole
teardown sequence runs again: across the two invocations the command
controller is stopped twice and the database is flushed twice, and the second
run performs the same non-empty event trace as the first instead of returning
immediately. -/
theorem cleanup_second_invocation_reruns_teardown :
    List.count Event.cmdStop (cleanupTwice sampleApp benign) = 2 ∧
    List.count Event.dbFlush (cleanupTwice sampleApp benign) = 2 ∧
    (cleanup sampleApp benign).1 ≠ [] := by decide

/-- Claim C1 (amended): `cleanup` executes its teardown sequence on every
invocation.  On an instance whose attributes are present, a single run stops
the command controller exactly once, and two consecutive runs — as when two
of the registered trigger paths (signal handler, atexit hook, the finally
block of `start`) fire in sequence — stop it twice: there is no guard making
a second invocation return immediately. -/
theorem cleanup_runs_teardown_every_invocation (app : App) (b : Behavior)
    (hc : app.hasConsoleView = true) (h1 : app.hasCmdController = true) :
    List.count Event.cmdStop (cleanup app b).1 = 1 ∧
    List.count Event.cmdStop (cleanupTwice app b) = 2 := by
  obtain ⟨d, s, e, n, x, y, z, c1, c2, c3, c4, c5⟩ := app
  dsimp only at hc h1
  subst hc
  subst h1
  unfold cleanupTwice
  rw [cleanup_flags]
  revert c3 c4 c5
  obtain ⟨b1, b2, b3, b4, b5, b6⟩ := b
  revert b1 b2 b3 b4 b5 b6
  decide

theorem cleanup_runs_teardown_every_invocation_witness :
    List.count Event.cmdStop (cleanup sampleApp benign).1 = 1 ∧
    List.count Event.cmdStop (cleanupTwice sampleApp benign) = 2 :=
  cleanup_runs_teardown_every_invocation sampleApp benign rfl rfl

/-- Claim C2: in every `cleanup` run, the teardown-step collaborator calls
that occur do so in the fixed order command-stop, WebSocket-close,
visualization-stop, database-flush, database-close (a sublist of that
canonical sequence, so no reordering and no repetition); and on a fully
constructed instance with the visualizer running and the flush succeeding,
all five occur in exactly that order. -/
theorem cleanup_step_order_fixed (app : App) (b : Behavior) :
    (stepTrace (cleanup app b).1).Sublist
      [Event.cmdStop, Event.wsClose, Event.vizStop, Event.dbFlush,
       Event.dbClose] ∧
    (app.hasConsoleView = true → app.hasCmdController = true →
     app.hasWsController = true → app.hasVisualizer = true →
     app.hasDbManager = true → b.vizRunning = true →
     b.dbFlushRaises = false →
     stepTrace (cleanup app b).1 =
       [Event.cmdStop, Event.wsClose, Event.vizStop, Event.dbFlush,
        Event.dbClose]) := by
  obtain ⟨d, s, e, n, x, y, z, c1, c2, c3, c4, c5⟩ := app
  rw [cleanup_flags]
  dsimp only
  revert c1 c2 c3 c4 c5
  obtain ⟨b1, b2, b3, b4, b5, b6⟩ := b
  revert b1 b2 b3 b4 b5 b6
  decide

theorem cleanup_step_order_fixed_witness :
    (stepTrace (cleanup sampleApp vizBehavior).1).Sublist
      [Event.cmdStop, Event.wsClose, Event.vizStop, Event.dbFlush,
       Event.dbClose] ∧
    stepTrace (cleanup sampleApp vizBehavior).1 =
      [Event.cmdStop, Event.wsClose, Event.vizStop, Event.dbFlush,
       Event.dbClose] := by
  have h := cleanup_step_order_fixed sampleApp vizBehavior
  exact ⟨h.1, h.2 rfl rfl rfl rfl rfl rfl rfl⟩

/-- Claim C3: on a fully constructed instance, `cleanup` is best-effort: it
never lets a step exception escape, it always reaches the final report, each
failing collaborator call is reported by the print of its except block, and
every teardown step is attempted no matter which earlier calls raised. -/
theorem cleanup_continues_after_step_failures (app : App) (b : Behavior)
    (hc : app.hasConsoleView = true) (h1 : app.hasCmdController = true)
    (h2 : app.hasWsController = true) (h3 : app.hasVisualizer = true)
    (h4 : app.hasDbManager = true) :
    (cleanup app b).2 = none ∧
    Event.infoShutdownComplete ∈ (cleanup app b).1 ∧
    (b.cmdStopRaises = true → Event.rawErrCmdStop ∈ (cleanup app b).1) ∧
    (b.wsCloseRaises = true → Event.rawErrWsClose ∈ (cleanup app b).1) ∧
    (b.vizRunning = true → b.vizStopRaises = true →
      Event.rawErrVizStop ∈ (cleanup app b).1) ∧
    (b.dbFlushRaises = true → Event.rawErrDb ∈ (cleanup app b).1) ∧
    (b.dbFlushRaises = false → b.dbCloseRaises = true →
      Event.rawErrDb ∈ (cleanup app b).1) ∧
    Event.cmdStop ∈ (cleanup app b).1 ∧
    Event.wsClose ∈ (cleanup app b).1 ∧
    (b.vizRunning = true → Event.vizStop ∈ (cleanup app b).1) ∧
    Event.dbFlush ∈ (cleanup app b).1 := by
  obtain ⟨d, s, e, n, x, y, z, c1, c2, c3, c4, c5⟩ := app
  dsimp only at hc h1 h2 h3 h4
  subst hc; subst h1; subst h2; subst h3; subst h4
  rw [cleanup_flags]
  obtain ⟨b1, b2, b3, b4, b5, b6⟩ := b
  revert b1 b2 b3 b4 b5 b6
  decide

theorem cleanup_continues_after_step_failures_witness :
    (cleanup sampleApp allRaise).2 = none ∧
    Event.rawErrCmdStop ∈ (cleanup sampleApp allRaise).1 ∧
    Event.rawErrDb ∈ (cleanup sampleApp allRaise).1 ∧
    Event.dbFlush ∈ (cleanup sampleApp allRaise).1 := by
  obtain ⟨w1, w2, w3, w4, w5, w6, w7, w8, w9, w10, w11⟩ :=
    cleanup_continues_after_step_failures sampleApp allRaise rfl rfl rfl rfl rfl
  exact ⟨w1, w3 rfl, w6 rfl, w11⟩

/-- Claim C8: inside the database teardown step, `close()` runs only when
`flush()` returned without raising: when the flush raises, no `dbClose`
appears in the trace of any `cleanup` run, and on a fully constructed
instance the flush is attempted but the success report is skipped while the
shared except block reports the error; when the flush does not raise, the
close is performed. -/
theorem cleanup_db_close_only_after_flush_success (app : App) (b : Behavior) :
    (b.dbFlushRaises = true → Event.dbClose ∉ (cleanup app b).1) ∧
    (app.hasConsoleView = true → app.hasDbManager = true →
     b.dbFlushRaises = true →
      Event.dbFlush ∈ (cleanup app b).1 ∧
      Event.successDbClosed ∉ (cleanup app b).1 ∧
      Event.rawErrDb ∈ (cleanup app b).1) ∧
    (app.hasConsoleView = true → app.hasDbManager = true →
     b.dbFlushRaises = false → Event.dbClose ∈ (cleanup app b).1) := by
  obtain ⟨d, s, e, n, x, y, z, c1, c2, c3, c4, c5⟩ := app
  obtain ⟨b1, b2, b3, b4, b5, b6⟩ := b
  rw [cleanup_flags]
  dsimp only
  refine ⟨fun h5 => ?_, fun h1 h5 h6 => ?_, fun h1 h5 h6 => ?_⟩
  · subst h5
    revert c1 c2 c3 c4 c5 b1 b2 b3 b4 b6
    decide
  · subst h1 h5 h6
    revert c2 c3 c4 b1 b2 b3 b4 b6
    decide
  · subst h1 h5 h6
    revert c2 c3 c4 b1 b2 b3 b4 b6
    decide

theorem cleanup_db_close_only_after_flush_success_witness :
    Event.dbClose ∉ (cleanup sampleApp flushFails).1 ∧
    Event.dbFlush ∈ (cleanup sampleApp flushFails).1 ∧
    Event.successDbClosed ∉ (cleanup sampleApp flushFails).1 ∧
    Event.rawErrDb ∈ (cleanup sampleApp flushFails).1 := by
  have h := cleanup_db_close_only_after_flush_success sampleApp flushFails
  exact ⟨h.1 rfl, h.2.1 rfl rfl rfl⟩

/-- Claim C9, counterexample: `cleanup` is not safe on every partially
constructed instance: on one where construction failed before `console_view`
was assigned (line 44), the unguarded `self.console_view.print_info` at line
119 raises `AttributeError`, and the database step is never reached even
though `db_manager` is present. -/
theorem cleanup_missing_console_view_raises :
    (cleanup noConsoleApp benign).2 = some PyError.attributeError ∧
    noConsoleApp.hasDbManager = true ∧
    Event.dbFlush ∉ (cleanup noConsoleApp benign).1 := by decide

/-- Claim C9 (amended): on a partially constructed instance that has
`console_view` assigned, `cleanup` raises nothing, and the hasattr guards
skip exactly the steps of the missing components: the command-stop,
WebSocket-close and database steps each occur iff their component is present,
and the visualization stop occurs iff the visualizer is present and running.
Without `console_view`, the unguarded report on line 119 raises
`AttributeError`. -/
theorem cleanup_hasattr_guards_skip_missing_steps (app : App) (b : Behavior)
    (hc : app.hasConsoleView = true) :
    (cleanup app b).2 = none ∧
    (Event.cmdStop ∈ (cleanup app b).1 ↔ app.hasCmdController = true) ∧
    (Event.wsClose ∈ (cleanup app b).1 ↔ app.hasWsController = true) ∧
    (Event.vizStop ∈ (cleanup app b).1 ↔
      (app.hasVisualizer = true ∧ b.vizRunning = true)) ∧
    (Event.dbFlush ∈ (cleanup app b).1 ↔ app.hasDbManager = true) := by
  obtain ⟨d, s, e, n, x, y, z, c1, c2, c3, c4, c5⟩ := app
  dsimp only at hc
  subst hc
  rw [cleanup_flags]
  dsimp only
  revert c2 c3 c4 c5
  obtain ⟨b1, b2, b3, b4, b5, b6⟩ := b
  revert b1 b2 b3 b4 b5 b6
  decide

theorem cleanup_hasattr_guards_skip_missing_steps_witness :
    (cleanup someMissingApp benign).2 = none ∧
    Event.cmdStop ∉ (cleanup someMissingApp benign).1 ∧
    Event.dbFlush ∈ (cleanup someMissingApp benign).1 := by
  obtain ⟨w1, w2, w3, w4, w5⟩ :=
    cleanup_hasattr_guards_skip_missing_steps someMissingApp benign rfl
  refine ⟨w1, fun hm => ?_, w5.mpr rfl⟩
  exact Bool.false_ne_true (w2.mp hm)

/-- Claim C10: on an instance with the visualizer attribute present (and
`console_view` present so that line 119 does not abort the run), the
visualization stop call occurs in the `cleanup` trace exactly when the
`running` flag read at line 136 is true: a visualizer that is not running is
never asked to stop. -/
theorem cleanup_viz_stop_iff_running (app : App) (b : Behavior)
    (hc : app.hasConsoleView = true) (hv : app.hasVisualizer = true) :
    Event.vizStop ∈ (cleanup app b).1 ↔ b.vizRunning = true := by
  obtain ⟨d, s, e, n, x, y, z, c1, c2, c3, c4, c5⟩ := app
  dsimp only at hc hv
  subst hc
  subst hv
  rw [cleanup_flags]
  revert c2 c3 c5
  obtain ⟨b1, b2, b3, b4, b5, b6⟩ := b
  revert b1 b2 b3 b4 b5 b6
  decide

theorem cleanup_viz_stop_iff_running_witness :
    Event.vizStop ∈ (cleanup sampleApp vizBehavior).1 :=
  (cleanup_viz_stop_iff_running sampleApp vizBehavior rfl rfl).mpr rfl

/-- Claim C4: `_setup_signal_handlers` registers the same closure for SIGINT
and SIGTERM, and on an instance with `console_view` present, delivering
either signal runs the full `cleanup` trace inside the handler and then
terminates the process: the handler trace embeds the cleanup trace, its last
event is the `sys.exit` call, and no exception escapes the handler. -/
theorem signal_handlers_same_shutdown_path (app : App) (b : Behavior)
    (sig : SignalKind) (hc : app.hasConsoleView = true) :
    setup_signal_handlers SignalKind.sigint =
      setup_signal_handlers SignalKind.sigterm ∧
    List.IsInfix (cleanup app b).1 (setup_signal_handlers sig app b).1 ∧
    (setup_signal_handlers sig app b).1.getLast? = some Event.sysExit ∧
    (setup_signal_handlers sig app b).2 = none := by
  have hn := cleanup_err_none app b hc
  have hh : setup_signal_handlers sig app b =
      (Event.rawInterrupt :: (cleanup app b).1 ++ [Event.sysExit], none) := by
    show signal_handler app b = _
    unfold signal_handler
    dsimp only
    rw [hn]
  refine ⟨rfl, ?_, ?_, ?_⟩
  · rw [hh]
    exact ⟨[Event.rawInterrupt], [Event.sysExit], by simp⟩
  · rw [hh]
    dsimp only
    rw [List.getLast?_concat]
  · rw [hh]

theorem signal_handlers_same_shutdown_path_witness :
    setup_signal_handlers SignalKind.sigint =
      setup_signal_handlers SignalKind.sigterm ∧
    List.IsInfix (cleanup sampleApp benign).1
      (setup_signal_handlers SignalKind.sigint sampleApp benign).1 ∧
    (setup_signal_handlers SignalKind.sigint sampleApp benign).1.getLast? =
      some Event.sysExit := by
  have h := signal_handlers_same_shutdown_path sampleApp benign
    SignalKind.sigint rfl
  exact ⟨h.1, h.2.1, h.2.2.1⟩

/-- Claim C5, counterexample: an exception raised by a startup step that runs
before the try/finally of `start` — here `ws_controller.connect()` at line 93
— propagates out of `start` without `cleanup` ever being invoked: the start
trace contains neither the opening cleanup report nor any teardown step. -/
theorem start_connect_failure_skips_cleanup :
    (start sampleApp benign sbConnectFails).2 = some PyError.connectError ∧
    Event.infoCleaningUp ∉ (start sampleApp benign sbConnectFails).1 ∧
    Event.dbFlush ∉ (start sampleApp benign sbConnectFails).1 := by decide

/-- Claim C5 (amended): once `start` reaches its keep-alive section, every
exit — the `KeyboardInterrupt` arm as well as any other exception unwinding
the loop — runs `cleanup` before `start` returns, so the cleanup trace is a
suffix of the start trace; this holds provided the startup calls before the
`try` (lines 90-98) did not raise, since an exception there escapes `start`
without running `cleanup` (see the counterexample). -/
theorem start_keepalive_exit_runs_cleanup (app : App) (b : Behavior)
    (sb : StartBehavior) (h1 : sb.startListenerRaises = false)
    (h2 : sb.connectRaises = false)
    (h3 : app.enable_viz = true → sb.vizStartRaises = false) :
    List.IsSuffix (cleanup app b).1 (start app b sb).1 := by
  have hloop : ∀ t : List Event,
      List.IsSuffix (cleanup app b).1 (startLoop app b sb t).1 := by
    intro t
    unfold startLoop
    by_cases hk : sb.loopKeyboardInterrupt = true
    · rw [if_pos hk]
      exact List.suffix_append _ _
    · rw [if_neg hk]
      exact List.suffix_append _ _
  by_cases hv : app.enable_viz = true
  · have h3' := h3 hv
    by_cases hres : sb.vizStartResult = true
    · simp only [start, h1, h2, hv, h3', hres, Bool.false_eq_true, if_false,
        if_true]
      exact hloop _
    · have hres' : sb.vizStartResult = false := by
        revert hres; cases sb.vizStartResult <;> simp
      simp only [start, h1, h2, hv, h3', hres', Bool.false_eq_true, if_false,
        if_true]
      exact hloop _
  · have hv' : app.enable_viz = false := by
      revert hv; cases app.enable_viz <;> simp
    simp only [start, h1, h2, hv', Bool.false_eq_true, if_false]
    exact hloop _

theorem start_keepalive_exit_runs_cleanup_witness :
    List.IsSuffix (cleanup sampleApp benign).1
      (start sampleApp benign sbKeyboard).1 :=
  start_keepalive_exit_runs_cleanup sampleApp benign sbKeyboard rfl rfl
    (fun _ => rfl)

/-- Claim C6: construction uppercases each configured symbol string once and
hands that same list unchanged to the trade model, the order-book model and
the visualization view; no modelled operation of the coordinator rebinds it
afterwards (the methods return event traces and leave the `App` value
untouched). -/
theorem init_symbols_uppercased_and_shared (args : Args) :
    (init args).symbols = args.symbols.map pyUpper ∧
    (init args).trade_model_symbols = (init args).symbols ∧
    (init args).order_book_model_symbols = (init args).symbols ∧
    (init args).visualizer_symbols = (init args).symbols :=
  ⟨rfl, rfl, rfl, rfl⟩

/-- Claim C7: provided the two startup calls before it did not raise,
`visualizer.start()` is invoked during `start` exactly when the
visualization-enabled flag is set; and when it returns `False`, the failure
is reported through the console view error channel and `start` still goes on
to enter the keep-alive loop instead of terminating. -/
theorem start_viz_called_iff_enabled (app : App) (b : Behavior)
    (sb : StartBehavior) (h1 : sb.startListenerRaises = false)
    (h2 : sb.connectRaises = false) :
    (Event.vizStart ∈ (start app b sb).1 ↔ app.enable_viz = true) ∧
    (app.enable_viz = true → sb.vizStartRaises = false →
     sb.vizStartResult = false →
      Event.errorVizFailed ∈ (start app b sb).1 ∧
      Event.loopEntered ∈ (start app b sb).1) := by
  by_cases hv : app.enable_viz = true
  · constructor
    · constructor
      · intro _
        exact hv
      · intro _
        by_cases hr : sb.vizStartRaises = true
        · simp [start, h1, h2, hv, hr]
        · have hr' : sb.vizStartRaises = false := by
            revert hr; cases sb.vizStartRaises <;> simp
          by_cases hres : sb.vizStartResult = true
          · simp [start, startLoop, h1, h2, hv, hr', hres]
            by_cases hk : sb.loopKeyboardInterrupt = true <;> simp [hk]
          · have hres' : sb.vizStartResult = false := by
              revert hres; cases sb.vizStartResult <;> simp
            simp [start, startLoop, h1, h2, hv, hr', hres']
            by_cases hk : sb.loopKeyboardInterrupt = true <;> simp [hk]
    · intro _ hr0 hres0
      constructor
      · simp [start, startLoop, h1, h2, hv, hr0, hres0]
        by_cases hk : sb.loopKeyboardInterrupt = true <;> simp [hk]
      · simp [start, startLoop, h1, h2, hv, hr0, hres0]
        by_cases hk : sb.loopKeyboardInterrupt = true <;> simp [hk]
  · have hv' : app.enable_viz = false := by
      revert hv; cases app.enable_viz <;> simp
    constructor
    · constructor
      · intro hmem
        exfalso
        have hnc := vizStart_not_mem_cleanup app b
        revert hmem
        simp [start, startLoop, h1, h2, hv']
        by_cases hk : sb.loopKeyboardInterrupt = true <;> simp [hk, hnc]
      · intro hcontra
        exact absurd hcontra (by simp [hv'])
    · intro hcontra
      exact absurd hcontra (by simp [hv'])

theorem start_viz_called_iff_enabled_witness :
    (Event.vizStart ∈ (start vizApp benign sbVizFails).1 ↔
      vizApp.enable_viz = true) ∧
    Event.errorVizFailed ∈ (start vizApp benign sbVizFails).1 ∧
    Event.loopEntered ∈ (start vizApp benign sbVizFails).1 := by
  have h := start_viz_called_iff_enabled vizApp benign sbVizFails rfl rfl
  exact ⟨h.1, h.2 rfl rfl rfl⟩
